import Mathlib

/-
Verification of the pyiv dependency-injection core.

This development shallowly embeds the binding registry (pyiv/config.py),
the resolution engine (pyiv/injector.py), the scope lifecycle closures
(pyiv/scope.py), the Key/Qualifier identity model (pyiv/key.py) and the
reflection discovery rules (pyiv/reflection.py) into Lean, and proves or
refutes the specified behavioural properties against that embedding.

Modelling conventions:
  * Python classes are identified by natural-number ids (`Nat`); the world
    `World` maps a class id to its constructor signature and flags, and a
    factory id to its signature.  The id 0 is reserved for the `Injector`
    class itself (used by the `annotation == Injector` special case).
  * Python object identity is modelled by allocating a fresh `Nat` id per
    constructed object; `PVal.obj id cls fields` records the id, the class
    and the keyword arguments the constructor received.
  * Python dicts are association lists looked up with the relevant
    equality (ids with `==`, qualified keys with the embedded `Key.__eq__`).
  * Python exceptions are an explicit error type threaded through every
    call; state mutated before an exception is raised is preserved, as in
    Python, so every embedded function returns `St × Except PyError A`.
  * Recursion depth is modelled by a fuel argument consumed at every call;
    fuel exhaustion plays the role of Python's RecursionError.  All
    concrete scenarios below run with ample fuel.
-/

set_option maxRecDepth 20000

namespace Pyiv

/-- Python exceptions that the embedded pyiv code can raise or propagate. -/
inductive PyError where
  | valueError
  | typeError
  | attributeError
  | recursionError
deriving DecidableEq, Repr

/-- Embedded Python values: `None`, the resolving injector itself (identified
by an injector id), constructed objects (identity id, class id, and the
keyword arguments the constructor received), materialized sets and lists,
and an `InjectorProvider` created for a `Provider[T]` parameter. -/
inductive PVal where
  | vnone
  | injectorRef (iid : Nat)
  | obj (id : Nat) (cls : Nat) (fields : List (String × PVal))
  | vset (xs : List PVal)
  | vlist (xs : List PVal)
  | injProviderV (t : Nat)
deriving Repr

mutual

/-- Structural equality on embedded values.  For `obj` this coincides with
Python's default identity-based `__eq__`: the allocation id determines the
object, so id equality is object identity. -/
def pvalBeq : PVal → PVal → Bool
  | .vnone, .vnone => true
  | .injectorRef a, .injectorRef b => a == b
  | .obj i c f, .obj i' c' f' => i == i' && c == c' && pvalFieldsBeq f f'
  | .vset xs, .vset ys => pvalListBeq xs ys
  | .vlist xs, .vlist ys => pvalListBeq xs ys
  | .injProviderV a, .injProviderV b => a == b
  | _, _ => false

/-- Pointwise `pvalBeq` on lists of values. -/
def pvalListBeq : List PVal → List PVal → Bool
  | [], [] => true
  | x :: xs, y :: ys => pvalBeq x y && pvalListBeq xs ys
  | _, _ => false

/-- Pointwise `pvalBeq` on keyword-argument lists. -/
def pvalFieldsBeq : List (String × PVal) → List (String × PVal) → Bool
  | [], [] => true
  | (n, x) :: xs, (m, y) :: ys => n == m && pvalBeq x y && pvalFieldsBeq xs ys
  | _, _ => false

end

/-- Association-list lookup with an explicit key equality, mirroring a Python
`dict.get(k)`: the stored key is compared against the query key. -/
def dGetBy {κ α : Type} (beq : κ → κ → Bool) : List (κ × α) → κ → Option α
  | [], _ => none
  | (x, w) :: rest, k => if beq x k then some w else dGetBy beq rest k

/-- Association-list update with an explicit key equality, mirroring a Python
`d[k] = v`: an existing equal key keeps its slot (and its original key
object), otherwise the pair is appended in insertion order. -/
def dSetBy {κ α : Type} (beq : κ → κ → Bool) : List (κ × α) → κ → α → List (κ × α)
  | [], k, v => [(k, v)]
  | (x, w) :: rest, k, v =>
    if beq x k then (x, v) :: rest else (x, w) :: dSetBy beq rest k v

/-- Dict lookup for `Nat`-keyed dicts (class ids, scope ids, object ids). -/
def dGet {α : Type} (d : List (Nat × α)) (k : Nat) : Option α :=
  dGetBy (fun a b => a == b) d k

/-- Dict update for `Nat`-keyed dicts. -/
def dSet {α : Type} (d : List (Nat × α)) (k : Nat) (v : α) : List (Nat × α) :=
  dSetBy (fun a b => a == b) d k v

/-- Dict lookup for `String`-keyed dicts (keyword arguments). -/
def sGet {α : Type} (d : List (String × α)) (k : String) : Option α :=
  dGetBy (fun a b => a == b) d k

/-- Dict update for `String`-keyed dicts. -/
def sSet {α : Type} (d : List (String × α)) (k : String) (v : α) : List (String × α) :=
  dSetBy (fun a b => a == b) d k v

/-- Python `set.add` on a list representation: a member equal (by `pvalBeq`,
which is object identity for instances) to an existing one is dropped,
otherwise it is appended.  Iteration order of Python sets is unspecified;
this model fixes it to insertion order, which no proved property relies on
beyond cardinality and membership. -/
def pySetAdd (xs : List PVal) (v : PVal) : List PVal :=
  if xs.any (fun x => pvalBeq x v) then xs else xs ++ [v]

/-- Python `set(iterable)` built by repeated `set.add`. -/
def pySetOfList (xs : List PVal) : List PVal :=
  xs.foldl pySetAdd []

/-- Python `set.add` for sets of classes (used by `Config.register_multibinding`
for the set-implementation slot). -/
def natSetAdd (xs : List Nat) (v : Nat) : List Nat :=
  if xs.contains v then xs else xs ++ [v]

/-- SingletonType enum from pyiv/singleton.py: NONE, SINGLETON, GLOBAL_SINGLETON. -/
inductive SingletonType where
  | noneT
  | singletonT
  | globalSingletonT
deriving DecidableEq, Repr

/-- Scope objects from pyiv/scope.py.  Every scope instance carries an object
id `sid`: `Injector._scoped_instances` is keyed by the scope object, and each
`SingletonScope` instance owns its own cache. -/
inductive ScopeV where
  | noScope (sid : Nat)
  | singletonScope (sid : Nat)
  | globalSingletonScope (sid : Nat)
deriving DecidableEq, Repr

/-- Object id of a scope instance. -/
def ScopeV.sid : ScopeV → Nat
  | .noScope s => s
  | .singletonScope s => s
  | .globalSingletonScope s => s

/-- Test for `isinstance(scope, NoScope)`. -/
def ScopeV.isNoScope : ScopeV → Bool
  | .noScope _ => true
  | _ => false

/-- Provider objects.  `instanceP` is an `InstanceProvider` (returns a fixed
pre-built value), `injectorP` an `InjectorProvider` (its `get()` delegates to
`inject` of the wrapped class on the owning injector), and `clsAsP` a plain
class stored as a provider by `Config.register_key` when the class happens to
have a callable `get` attribute: calling `provider.get()` then invokes the
unbound instance method without `self`, a `TypeError`. -/
inductive ProviderRepr where
  | instanceP (v : PVal)
  | injectorP (t : Nat)
  | clsAsP (t : Nat)
deriving Repr

/-- Registered concrete implementation: a class or a factory callable.
The "concrete is a pre-built instance" arm of `Config.register` is not
exercised by any claim and is not modelled. -/
inductive Concrete where
  | cls (t : Nat)
  | factory (f : Nat)
deriving Repr

/-- Kind of a Python parameter, as classified by `inspect.Parameter.kind`
in `Injector._resolve_dependencies` (only the varargs kinds are special). -/
inductive PKind where
  | normal
  | varPositional
  | varKeyword
deriving DecidableEq, Repr

/-- Shape of a runtime type annotation, as discriminated by
`Injector._resolve_dependencies`: absent, a plain class (including the
`Injector` class itself, id 0), `Provider[T]`, `Optional[T]`, `Set[T]`,
`List[T]`, or one of the builtin types in the hard-coded tuple. -/
inductive Ann where
  | noAnn
  | clsA (t : Nat)
  | providerOf (t : Nat)
  | optionalOf (t : Nat)
  | setOf (t : Nat)
  | listOf (t : Nat)
  | builtinA
deriving DecidableEq, Repr

/-- One constructor or factory parameter: name, kind, annotation, and
default value (`none` when `param.default` is `inspect.Parameter.empty`). -/
structure Param where
  name : String
  kind : PKind
  ann : Ann
  dflt : Option PVal
deriving Repr

/-- A convenience for the ubiquitous `self` receiver parameter. -/
def selfParam : Param :=
  { name := "self", kind := .normal, ann := .noAnn, dflt := none }

/-- Static facts about a Python class: its `__init__` parameters, whether
instantiating it raises `TypeError` (abstract classes with unimplemented
abstract methods), and whether `hasattr(cls, "get")` holds with a callable
value (consulted by `Config.register_key`). -/
structure ClassDef where
  params : List Param
  abstract : Bool
  hasGetAttr : Bool

/-- Static facts about a factory callable: its signature and the class of
the object it returns.  The embedded factory constructs a fresh object of
`retCls` from the keyword arguments it is invoked with, so theorems can
observe exactly which arguments the injector passed. -/
structure FactoryDef where
  params : List Param
  retCls : Nat

/-- The ambient program: what class and factory each id denotes. -/
structure World where
  classes : Nat → ClassDef
  factories : Nat → FactoryDef

/-- Reserved class id of the `Injector` class itself. -/
def tyInjector : Nat := 0

/-- Qualifier values from pyiv/key.py; `Named` is the built-in qualifier,
value-equal on its name and hashed from `("Named", name)`. -/
inductive QualV where
  | named (name : String)
deriving DecidableEq, Repr

/-- A qualified binding key from pyiv/key.py: a class id plus an optional
qualifier. -/
structure KeyV where
  ty : Nat
  qual : Option QualV
deriving DecidableEq, Repr

/-- Python `==` on optional qualifiers: `None == None` is true, two `Named`
compare by name, and `None` never equals a `Named`. -/
def qualEq : Option QualV → Option QualV → Bool
  | none, none => true
  | some (.named a), some (.named b) => a == b
  | _, _ => false

/-- `Key.__eq__` from pyiv/key.py: keys are equal iff their types compare
equal and their qualifiers compare equal. -/
def keyBeq (k1 k2 : KeyV) : Bool :=
  k1.ty == k2.ty && qualEq k1.qual k2.qual

/-- Deterministic model of Python's string hash: a fold over the characters.
Only the property "equal values hash equal" matters to the claims. -/
def strHashF (s : String) : Nat :=
  s.data.foldl (fun h c => h * 31 + c.toNat) 7

/-- Model of Python's tuple-hash combinator. -/
def mixN (a b : Nat) : Nat :=
  a * 1000003 + b

/-- `Named.__hash__` from pyiv/key.py: `hash(("Named", self.name))`. -/
def namedHash (s : String) : Nat :=
  mixN (strHashF "Named") (strHashF s)

/-- Hash of an optional qualifier; `hash(None)` is some fixed constant. -/
def qualHashF : Option QualV → Nat
  | none => 0
  | some (.named s) => namedHash s

/-- `Key.__hash__` from pyiv/key.py: `hash((self.type, self.qualifier))`. -/
def keyHash (k : KeyV) : Nat :=
  mixN k.ty (qualHashF k.qual)

/-- The binding registry accumulated by pyiv/config.py (the parts that are
immutable after `configure()`; the `_instances` dict is mutated later by the
injector's lazy-singleton branch, so its initial contents live here and its
current contents in the interpreter state).  `nextSid` allocates object ids
for the scope instances `Config.register` creates when translating a
`singleton_type` into a scope. -/
structure ConfigD where
  registrations : List (Nat × Concrete)
  instancesD : List (Nat × Option PVal)
  singletonTypes : List (Nat × SingletonType)
  scopes : List (Nat × ScopeV)
  providers : List (Nat × ProviderRepr)
  qualifiedBindings : List (KeyV × (Nat × Option ProviderRepr × Option ScopeV))
  multibindings : List (Nat × (List Nat × List Nat × List PVal × List PVal))
  nextSid : Nat

/-- A freshly constructed `Config` before any registration. -/
def emptyConfig : ConfigD :=
  { registrations := [], instancesD := [], singletonTypes := [], scopes := [],
    providers := [], qualifiedBindings := [], multibindings := [], nextSid := 1 }

/-- `Config.get_singleton_type`: defaults to NONE when unregistered. -/
def getSingletonTypeF (cfg : ConfigD) (cls : Nat) : SingletonType :=
  (dGet cfg.singletonTypes cls).getD .noneT

/-- `Config.register` from pyiv/config.py, lines 86-155.  The
`isinstance(abstract, type)` guard holds by construction here because class
ids are the only way to name a class.  Mirrors, in order: the
singleton/singleton_type conflict check, the deprecated `singleton=True`
translation, the translation of a singleton type into a fresh scope instance
when no scope was given, scope storage, the provider short-circuit (which
still records a class concrete for reference), singleton-type storage, the
lazy-singleton placeholder for SINGLETON class registrations, and the plain
registration (the pre-built-instance arm is not modelled, see `Concrete`). -/
def registerF (cfg : ConfigD) (abstract : Nat) (concrete : Concrete)
    (singleton : Bool) (styp : SingletonType) (scopeOpt : Option ScopeV)
    (providerOpt : Option ProviderRepr) : Except PyError ConfigD :=
  if singleton && !(styp == SingletonType.noneT) then .error .valueError
  else
    let styp1 := if singleton then SingletonType.singletonT else styp
    let scopePair : Option ScopeV × ConfigD :=
      match scopeOpt, styp1 with
      | none, .globalSingletonT =>
        (some (.globalSingletonScope cfg.nextSid), { cfg with nextSid := cfg.nextSid + 1 })
      | none, .singletonT =>
        (some (.singletonScope cfg.nextSid), { cfg with nextSid := cfg.nextSid + 1 })
      | s, _ => (s, cfg)
    let cfg1 := scopePair.2
    let cfg2 :=
      match scopePair.1 with
      | some s => { cfg1 with scopes := dSet cfg1.scopes abstract s }
      | none => cfg1
    match providerOpt with
    | some p =>
      let cfg3 := { cfg2 with providers := dSet cfg2.providers abstract p }
      .ok (match concrete with
        | .cls _ => { cfg3 with registrations := dSet cfg3.registrations abstract concrete }
        | _ => cfg3)
    | none =>
      let cfg3 :=
        if styp1 == SingletonType.noneT then cfg2
        else { cfg2 with singletonTypes := dSet cfg2.singletonTypes abstract styp1 }
      match styp1, concrete with
      | .singletonT, .cls _ =>
        .ok { cfg3 with instancesD := dSet cfg3.instancesD abstract none,
                        registrations := dSet cfg3.registrations abstract concrete }
      | _, _ =>
        .ok { cfg3 with registrations := dSet cfg3.registrations abstract concrete }

/-- `Config.register_instance`: stores the instance and records its class as
the registration (`type(instance)` is passed explicitly as `clsOfV`). -/
def registerInstanceF (cfg : ConfigD) (abstract : Nat) (v : PVal) (clsOfV : Nat) : ConfigD :=
  { cfg with instancesD := dSet cfg.instancesD abstract (some v),
             registrations := dSet cfg.registrations abstract (.cls clsOfV) }

/-- Implementation argument of `Config.register_key`: a class or a provider. -/
inductive KeyImpl where
  | kCls (t : Nat)
  | kProv (p : ProviderRepr)

/-- `Config.register_key` from pyiv/config.py, lines 426-444.  The stored
binding is `(key.type, provider, scope)`: a class implementation is treated
as a provider exactly when `hasattr(implementation, "get")` is callable (the
class object itself is then stored as the provider), and otherwise the class
is discarded — only `key.type` is recorded. -/
def registerKeyF (W : World) (cfg : ConfigD) (key : KeyV) (impl : KeyImpl)
    (scopeOpt : Option ScopeV) : ConfigD :=
  let providerOpt : Option ProviderRepr :=
    match impl with
    | .kProv p => some p
    | .kCls t => if (W.classes t).hasGetAttr then some (.clsAsP t) else none
  let qb := dSetBy keyBeq cfg.qualifiedBindings key (key.ty, providerOpt, scopeOpt)
  { cfg with qualifiedBindings := qb }

/-- `Config.register_multibinding` from pyiv/config.py, lines 474-494:
initializes the four-slot entry on first use, then adds the implementation
to the set slot (deduplicated) or appends it to the list slot. -/
def registerMultibindingF (cfg : ConfigD) (interface : Nat) (impl : Nat)
    (asSet : Bool) : ConfigD :=
  let entry := (dGet cfg.multibindings interface).getD ([], [], [], [])
  let entry1 :=
    if asSet then (natSetAdd entry.1 impl, entry.2.1, entry.2.2.1, entry.2.2.2)
    else (entry.1, entry.2.1 ++ [impl], entry.2.2.1, entry.2.2.2)
  { cfg with multibindings := dSet cfg.multibindings interface entry1 }

end Pyiv

namespace Pyiv

/-- Mutable state threaded through a resolution: the injector's per-injector
singleton cache (`Injector._singletons`), its scope-keyed cache
(`Injector._scoped_instances`, outer key the scope object id, inner key the
class), the current contents of the config's `_instances` dict (mutated by
the lazy-singleton branch of `inject`), the process-wide
`GlobalSingletonRegistry._instances` map, and the allocator for fresh object
identities. -/
structure St where
  singletons : List (Nat × PVal)
  scopedInstances : List (Nat × List (Nat × PVal))
  configInstances : List (Nat × Option PVal)
  globalRegistry : List (Nat × PVal)
  nextObjId : Nat
deriving Repr

/-- Initial state of a fresh injector over a finished config, as built by
`get_injector`: empty caches, the config's `_instances` as registered, an
empty global registry (a fresh process), and object ids starting at 1. -/
def mkSt (cfg : ConfigD) : St :=
  { singletons := [], scopedInstances := [], configInstances := cfg.instancesD,
    globalRegistry := [], nextObjId := 1 }

/-- Argument of `Injector.inject`: a class or a qualified key. -/
inductive Target where
  | ty (t : Nat)
  | key (k : KeyV)

/-- Result of `scope.scope(key, provider)` as written in pyiv/scope.py:
`NoScope.scope` returns the provider object unchanged, while
`SingletonScope.scope` and `GlobalSingletonScope.scope` build and return the
local function `scoped_provider` — a plain Python function object, not a
Provider instance. -/
inductive ScopedRet where
  | provRet (p : ProviderRepr)
  | closureRet (s : ScopeV) (key : Nat) (p : ProviderRepr)

/-- `Scope.scope` dispatch from pyiv/scope.py lines 165-175, 199-214
and 239-255. -/
def scopeScope : ScopeV → Nat → ProviderRepr → ScopedRet
  | .noScope _, _, p => .provRet p
  | s, k, p => .closureRet s k p

mutual

/-- `Injector.inject` from pyiv/injector.py lines 71-157: Key dispatch, then
for a class target the provider registration, the non-NoScope scope
registration, the GLOBAL_SINGLETON legacy flag, the pre-registered instance,
the per-injector singleton cache, and finally instantiation (direct when
unregistered, of the registered concrete otherwise). -/
def injectT (W : World) (cfg : ConfigD) (iid : Nat) :
    Nat → St → Target → List (String × PVal) → St × Except PyError PVal
  | 0, st, _, _ => (st, .error .recursionError)
  | n + 1, st, .key k, kwargs => injectKeyF W cfg iid n st k kwargs
  | n + 1, st, .ty cls, kwargs =>
    match dGet cfg.providers cls with
    | some p => providerGetF W cfg iid n st p
    | none =>
      match dGet cfg.scopes cls with
      | some (ScopeV.singletonScope sid) =>
        injectScopedF W cfg iid n st cls (ScopeV.singletonScope sid) kwargs
      | some (ScopeV.globalSingletonScope sid) =>
        injectScopedF W cfg iid n st cls (ScopeV.globalSingletonScope sid) kwargs
      | _ => injectAfterScopeF W cfg iid n st cls kwargs
termination_by structural fuel _ _ _ => fuel

/-- Continuation of `Injector.inject` after the provider and scope checks
(pyiv/injector.py lines 101-157): the singleton-type fallback. -/
def injectAfterScopeF (W : World) (cfg : ConfigD) (iid : Nat) :
    Nat → St → Nat → List (String × PVal) → St × Except PyError PVal
  | 0, st, _, _ => (st, .error .recursionError)
  | n + 1, st, cls, kwargs =>
    let styp := getSingletonTypeF cfg cls
    if styp == SingletonType.globalSingletonT then
      globalSingletonBranchF W cfg iid n st cls kwargs
    else
      match dGet st.configInstances cls with
      | some (some v) => (st, .ok v)
      | _ =>
        match (if styp == SingletonType.singletonT then dGet st.singletons cls else none) with
        | some v => (st, .ok v)
        | none =>
          match dGet cfg.registrations cls with
          | none => directInstantiateF W cfg iid n st cls kwargs styp
          | some concrete => registeredTailF W cfg iid n st cls concrete kwargs styp
termination_by structural fuel _ _ _ => fuel

/-- GLOBAL_SINGLETON legacy branch of `inject` (pyiv/injector.py lines
105-116): consult the global registry, else instantiate (the class itself
when unregistered, the registered concrete otherwise) and store globally. -/
def globalSingletonBranchF (W : World) (cfg : ConfigD) (iid : Nat) :
    Nat → St → Nat → List (String × PVal) → St × Except PyError PVal
  | 0, st, _, _ => (st, .error .recursionError)
  | n + 1, st, cls, kwargs =>
    match dGet st.globalRegistry cls with
    | some v => (st, .ok v)
    | none =>
      let r :=
        match dGet cfg.registrations cls with
        | none => instantiateF W cfg iid n st (.cls cls) kwargs
        | some c => instantiateF W cfg iid n st c kwargs
      match r with
      | (st1, .ok v) =>
        ({ st1 with globalRegistry := dSet st1.globalRegistry cls v }, .ok v)
      | err => err
termination_by structural fuel _ _ _ => fuel

/-- Unregistered-class branch of `inject` (pyiv/injector.py lines 130-137):
direct instantiation of the requested class, cached per singleton policy. -/
def directInstantiateF (W : World) (cfg : ConfigD) (iid : Nat) :
    Nat → St → Nat → List (String × PVal) → SingletonType → St × Except PyError PVal
  | 0, st, _, _, _ => (st, .error .recursionError)
  | n + 1, st, cls, kwargs, styp =>
    match instantiateF W cfg iid n st (.cls cls) kwargs with
    | (st1, .ok v) =>
      if styp == SingletonType.singletonT then
        ({ st1 with singletons := dSet st1.singletons cls v }, .ok v)
      else (st1, .ok v)
    | err => err
termination_by structural fuel _ _ _ _ => fuel

/-- Registered-concrete tail of `inject` (pyiv/injector.py lines 139-157):
the lazy-singleton placeholder branch, then plain instantiation with caching
per the singleton policy (including the old-style `_instances`-membership
caching). -/
def registeredTailF (W : World) (cfg : ConfigD) (iid : Nat) :
    Nat → St → Nat → Concrete → List (String × PVal) → SingletonType → St × Except PyError PVal
  | 0, st, _, _, _, _ => (st, .error .recursionError)
  | n + 1, st, cls, concrete, kwargs, styp =>
    match dGet st.configInstances cls with
    | some none =>
      match instantiateF W cfg iid n st concrete kwargs with
      | (st1, .ok v) =>
        ({ st1 with singletons := dSet st1.singletons cls v,
                    configInstances := dSet st1.configInstances cls (some v) }, .ok v)
      | err => err
    | _ =>
      match instantiateF W cfg iid n st concrete kwargs with
      | (st1, .ok v) =>
        if styp == SingletonType.singletonT then
          ({ st1 with singletons := dSet st1.singletons cls v }, .ok v)
        else if (dGet st1.configInstances cls).isSome then
          ({ st1 with singletons := dSet st1.singletons cls v }, .ok v)
        else (st1, .ok v)
      | err => err
termination_by structural fuel _ _ _ _ _ => fuel

/-- `Injector._inject_key` from pyiv/injector.py lines 159-187: a missing
binding raises ValueError; a provider binding goes through the scope (when
given) via `scope.scope(key.type, provider)` followed by `.get()`; a
class binding goes to scoped resolution of the bound `key.type` when a scope
is given (with no NoScope exemption here), else to standard `inject`. -/
def injectKeyF (W : World) (cfg : ConfigD) (iid : Nat) :
    Nat → St → KeyV → List (String × PVal) → St × Except PyError PVal
  | 0, st, _, _ => (st, .error .recursionError)
  | n + 1, st, k, kwargs =>
    match dGetBy keyBeq cfg.qualifiedBindings k with
    | none => (st, .error .valueError)
    | some (type_, providerOpt, scopeOpt) =>
      match providerOpt with
      | some p =>
        match scopeOpt with
        | some s => scopedRetGetF W cfg iid n st (scopeScope s k.ty p)
        | none => providerGetF W cfg iid n st p
      | none =>
        match scopeOpt with
        | some s => injectScopedF W cfg iid n st type_ s kwargs
        | none => injectT W cfg iid n st (.ty type_) kwargs
termination_by structural fuel _ _ _ => fuel

/-- `Injector._inject_scoped` from pyiv/injector.py lines 189-224: ensure a
per-scope cache exists, return a cache hit, otherwise wrap an
`InjectorProvider` for the class in the scope and call `.get()` on the
result, caching it when the scope is a SingletonScope or
GlobalSingletonScope.  (For those two scopes `scope.scope` returns a plain
function, so the `.get()` call raises AttributeError before the cache-insert
line can run; the insert is nevertheless translated faithfully.) -/
def injectScopedF (W : World) (cfg : ConfigD) (iid : Nat) :
    Nat → St → Nat → ScopeV → List (String × PVal) → St × Except PyError PVal
  | 0, st, _, _, _ => (st, .error .recursionError)
  | n + 1, st, cls, s, _kwargs =>
    let st1 :=
      if (dGet st.scopedInstances s.sid).isSome then st
      else { st with scopedInstances := dSet st.scopedInstances s.sid [] }
    let cache := (dGet st1.scopedInstances s.sid).getD []
    match dGet cache cls with
    | some v => (st1, .ok v)
    | none =>
      match scopedRetGetF W cfg iid n st1 (scopeScope s cls (.injectorP cls)) with
      | (st2, .ok v) =>
        match s with
        | .noScope _ => (st2, .ok v)
        | _ =>
          let cache2 := (dGet st2.scopedInstances s.sid).getD []
          ({ st2 with scopedInstances := dSet st2.scopedInstances s.sid (dSet cache2 cls v) },
           .ok v)
      | err => err
termination_by structural fuel _ _ _ _ => fuel

/-- The `scoped_provider.get()` attribute access and call (pyiv/injector.py
lines 181 and 218).  When `scope.scope` returned a Provider object
(NoScope), this is that provider's `get()`.  When it returned the
`scoped_provider` closure (SingletonScope, GlobalSingletonScope), the access
raises AttributeError: a Python function object has no `get` attribute. -/
def scopedRetGetF (W : World) (cfg : ConfigD) (iid : Nat) :
    Nat → St → ScopedRet → St × Except PyError PVal
  | 0, st, _ => (st, .error .recursionError)
  | n + 1, st, .provRet p => providerGetF W cfg iid n st p
  | _ + 1, st, .closureRet _ _ _ => (st, .error .attributeError)
termination_by structural fuel _ _ => fuel

/-- `provider.get()` for the modelled provider forms (pyiv/provider.py):
an InstanceProvider returns its stored value, an InjectorProvider delegates
to `inject` of its class on the owning injector, and a class stored as a
provider by `register_key` fails with TypeError when its unbound `get` is
called without `self`. -/
def providerGetF (W : World) (cfg : ConfigD) (iid : Nat) :
    Nat → St → ProviderRepr → St × Except PyError PVal
  | 0, st, _ => (st, .error .recursionError)
  | _ + 1, st, .instanceP v => (st, .ok v)
  | n + 1, st, .injectorP t => injectT W cfg iid n st (.ty t) []
  | _ + 1, st, .clsAsP _ => (st, .error .typeError)
termination_by structural fuel _ _ => fuel

/-- `Injector._instantiate` from pyiv/injector.py lines 226-252: a factory
callable first gets `kwargs["injector"] = self` when its signature has an
`injector` parameter, then its dependencies are resolved and it is invoked
(modelled as building a fresh object of its return class from the bound
keyword arguments); a class has its `__init__` signature resolved and is
then constructed — abstract classes raise TypeError at the call. -/
def instantiateF (W : World) (cfg : ConfigD) (iid : Nat) :
    Nat → St → Concrete → List (String × PVal) → St × Except PyError PVal
  | 0, st, _, _ => (st, .error .recursionError)
  | n + 1, st, .factory f, kwargs =>
    let fd := W.factories f
    let kwargs1 :=
      if fd.params.any (fun p => p.name == "injector") then
        sSet kwargs "injector" (.injectorRef iid)
      else kwargs
    match resolveDepsF W cfg iid n st fd.params kwargs1 [] with
    | (st1, .ok bound) =>
      ({ st1 with nextObjId := st1.nextObjId + 1 }, .ok (.obj st1.nextObjId fd.retCls bound))
    | (st1, .error e) => (st1, .error e)
  | n + 1, st, .cls t, kwargs =>
    let cd := W.classes t
    match resolveDepsF W cfg iid n st cd.params kwargs [] with
    | (st1, .ok bound) =>
      if cd.abstract then (st1, .error .typeError)
      else ({ st1 with nextObjId := st1.nextObjId + 1 }, .ok (.obj st1.nextObjId t bound))
    | (st1, .error e) => (st1, .error e)
termination_by structural fuel _ _ _ => fuel

/-- `Injector._resolve_dependencies` from pyiv/injector.py lines 254-377,
one parameter per step in signature order: skip `self` and the varargs
kinds; use an explicitly provided value; otherwise dispatch on the
annotation — the `injector`-with-Injector-annotation special case, the
`Provider[T]` wrapper, `Optional[T]` with ValueError/TypeError swallowed to
None, `Set[T]`/`List[T]` against a registered multibinding (the set is
seeded from the list-instance slot, exactly as the source does), a plain
registered class injected with ValueError/TypeError falling through to the
default, and builtins or unregistered types going straight to the default.
A required parameter with no value raises ValueError. -/
def resolveDepsF (W : World) (cfg : ConfigD) (iid : Nat) :
    Nat → St → List Param → List (String × PVal) → List (String × PVal) →
    St × Except PyError (List (String × PVal))
  | 0, st, _, _, _ => (st, .error .recursionError)
  | _ + 1, st, [], _, acc => (st, .ok acc)
  | n + 1, st, p :: rest, provided, acc =>
    if p.name == "self" then resolveDepsF W cfg iid n st rest provided acc
    else if p.kind == PKind.varPositional || p.kind == PKind.varKeyword then
      resolveDepsF W cfg iid n st rest provided acc
    else
      match sGet provided p.name with
      | some v => resolveDepsF W cfg iid n st rest provided (acc ++ [(p.name, v)])
      | none =>
        match p.ann with
        | .noAnn => resolveDefaultF W cfg iid n st p rest provided acc
        | .clsA t =>
          if p.name == "injector" && t == tyInjector then
            resolveDepsF W cfg iid n st rest provided (acc ++ [(p.name, .injectorRef iid)])
          else if (dGet cfg.registrations t).isSome then
            match injectT W cfg iid n st (.ty t) [] with
            | (st1, .ok v) => resolveDepsF W cfg iid n st1 rest provided (acc ++ [(p.name, v)])
            | (st1, .error .valueError) => resolveDefaultF W cfg iid n st1 p rest provided acc
            | (st1, .error .typeError) => resolveDefaultF W cfg iid n st1 p rest provided acc
            | (st1, .error e) => (st1, .error e)
          else resolveDefaultF W cfg iid n st p rest provided acc
        | .providerOf t =>
          resolveDepsF W cfg iid n st rest provided (acc ++ [(p.name, .injProviderV t)])
        | .optionalOf t =>
          match injectT W cfg iid n st (.ty t) [] with
          | (st1, .ok v) => resolveDepsF W cfg iid n st1 rest provided (acc ++ [(p.name, v)])
          | (st1, .error .valueError) =>
            resolveDepsF W cfg iid n st1 rest provided (acc ++ [(p.name, .vnone)])
          | (st1, .error .typeError) =>
            resolveDepsF W cfg iid n st1 rest provided (acc ++ [(p.name, .vnone)])
          | (st1, .error e) => (st1, .error e)
        | .setOf t =>
          match dGet cfg.multibindings t with
          | some (setImpls, _, _, listInstances) =>
            match injectSetLoopF W cfg iid n st setImpls (pySetOfList listInstances) with
            | (st1, .ok elems) =>
              resolveDepsF W cfg iid n st1 rest provided (acc ++ [(p.name, .vset elems)])
            | (st1, .error e) => (st1, .error e)
          | none => resolveDefaultF W cfg iid n st p rest provided acc
        | .listOf t =>
          match dGet cfg.multibindings t with
          | some (_, listImpls, _, listInstances) =>
            match injectListLoopF W cfg iid n st listImpls listInstances with
            | (st1, .ok elems) =>
              resolveDepsF W cfg iid n st1 rest provided (acc ++ [(p.name, .vlist elems)])
            | (st1, .error e) => (st1, .error e)
          | none => resolveDefaultF W cfg iid n st p rest provided acc
        | .builtinA => resolveDefaultF W cfg iid n st p rest provided acc
termination_by structural fuel _ _ _ _ => fuel

/-- Default-value step of `_resolve_dependencies` (pyiv/injector.py lines
370-375): use the declared default, else raise ValueError for a required
parameter that was neither provided nor injected. -/
def resolveDefaultF (W : World) (cfg : ConfigD) (iid : Nat) :
    Nat → St → Param → List Param → List (String × PVal) → List (String × PVal) →
    St × Except PyError (List (String × PVal))
  | 0, st, _, _, _, _ => (st, .error .recursionError)
  | n + 1, st, p, rest, provided, acc =>
    match p.dflt with
    | some v => resolveDepsF W cfg iid n st rest provided (acc ++ [(p.name, v)])
    | none => (st, .error .valueError)
termination_by structural fuel _ _ _ _ _ => fuel

/-- Set-multibinding materialization loop (pyiv/injector.py lines 326-332):
inject each implementation, adding the result to the set and silently
skipping ValueError and TypeError. -/
def injectSetLoopF (W : World) (cfg : ConfigD) (iid : Nat) :
    Nat → St → List Nat → List PVal → St × Except PyError (List PVal)
  | 0, st, _, _ => (st, .error .recursionError)
  | _ + 1, st, [], acc => (st, .ok acc)
  | n + 1, st, impl :: rest, acc =>
    match injectT W cfg iid n st (.ty impl) [] with
    | (st1, .ok v) => injectSetLoopF W cfg iid n st1 rest (pySetAdd acc v)
    | (st1, .error .valueError) => injectSetLoopF W cfg iid n st1 rest acc
    | (st1, .error .typeError) => injectSetLoopF W cfg iid n st1 rest acc
    | (st1, .error e) => (st1, .error e)
termination_by structural fuel _ _ _ => fuel

/-- List-multibinding materialization loop (pyiv/injector.py lines 336-342):
inject each implementation in registration order, appending the result and
silently skipping ValueError and TypeError. -/
def injectListLoopF (W : World) (cfg : ConfigD) (iid : Nat) :
    Nat → St → List Nat → List PVal → St × Except PyError (List PVal)
  | 0, st, _, _ => (st, .error .recursionError)
  | _ + 1, st, [], acc => (st, .ok acc)
  | n + 1, st, impl :: rest, acc =>
    match injectT W cfg iid n st (.ty impl) [] with
    | (st1, .ok v) => injectListLoopF W cfg iid n st1 rest (acc ++ [v])
    | (st1, .error .valueError) => injectListLoopF W cfg iid n st1 rest acc
    | (st1, .error .typeError) => injectListLoopF W cfg iid n st1 rest acc
    | (st1, .error e) => (st1, .error e)
termination_by structural fuel _ _ _ => fuel

end

end Pyiv

namespace Pyiv

/-- One invocation of the `scoped_provider` closure returned by
`SingletonScope.scope` (pyiv/scope.py lines 199-214), over the scope's
instance cache.  The wrapped provider is modelled as a stream `provResults`
of per-invocation outcomes together with an invocation counter `calls`: a
cache hit returns without touching the provider; a miss invokes the
provider, and only a successful result is stored — an exception propagates
and the assignment never runs. -/
def singletonScopeGetF (cache : List (Nat × PVal)) (key : Nat)
    (provResults : Nat → Except PyError PVal) (calls : Nat) :
    List (Nat × PVal) × Nat × Except PyError PVal :=
  match dGet cache key with
  | some v => (cache, calls, .ok v)
  | none =>
    match provResults calls with
    | .ok v => (dSet cache key v, calls + 1, .ok v)
    | .error e => (cache, calls + 1, .error e)

/-- One invocation of the `scoped_provider` closure returned by
`GlobalSingletonScope.scope` (pyiv/scope.py lines 239-255), over the
class-level shared cache.  Identical check-create-store logic to the
per-injector scope; the mutex that serializes it is elided in this
sequential model. -/
def globalSingletonScopeGetF (cache : List (Nat × PVal)) (key : Nat)
    (provResults : Nat → Except PyError PVal) (calls : Nat) :
    List (Nat × PVal) × Nat × Except PyError PVal :=
  match dGet cache key with
  | some v => (cache, calls, .ok v)
  | none =>
    match provResults calls with
    | .ok v => (dSet cache key v, calls + 1, .ok v)
    | .error e => (cache, calls + 1, .error e)

/-- Character-level prefix test, modelling Python `str.startswith`. -/
def strStarts (s pre : String) : Bool :=
  List.isPrefixOf pre.data s.data

/-- Character-level drop, modelling the Python slice `s[n:]`. -/
def strDropChars (s : String) (n : Nat) : String :=
  ⟨s.data.drop n⟩

/-- Character count of a string, modelling Python `len(s)`. -/
def strLenChars (s : String) : Nat :=
  s.data.length

/-- A candidate object seen by reflection discovery: its attribute name,
whether `inspect.isclass` holds, its `__module__` attribute (absent for
objects without one), whether it is a proper subclass of the scanned
interface, and whether it is the interface itself.  The subclass facts are
recorded relative to the one interface under discovery. -/
structure RClass where
  name : String
  isClass : Bool
  declModule : Option String
  subclassesIface : Bool
  isIface : Bool
deriving DecidableEq, Repr

/-- A module in the scanned tree: its dotted path, its members as returned
by `inspect.getmembers` (which yields them sorted by attribute name), and
the names of its importable submodules in the order `_get_submodules`
produces them (plain modules first, then subpackages). -/
structure RModule where
  path : String
  members : List RClass
  subNames : List String

/-- Module lookup by dotted path, modelling `importlib.import_module`
against the modelled tree (`none` is an ImportError). -/
def modFind (mods : List RModule) (p : String) : Option RModule :=
  mods.find? (fun m => m.path == p)

/-- `ReflectionConfig._is_in_module` from pyiv/reflection.py lines 198-244:
an object with no `__module__` is rejected; with a current module path the
declaring module must equal it exactly; the fallback (no current path)
accepts the registered package itself or, when the registration is
recursive, any strict submodule of it. -/
def isInModuleF (obj : RClass) (currentModulePath : Option String)
    (regInfo : Option (String × Bool)) : Bool :=
  match obj.declModule with
  | none => false
  | some m =>
    match currentModulePath with
    | some cur => m == cur
    | none =>
      match regInfo with
      | none => false
      | some (pkg, recursive) =>
        if m == pkg then true
        else if recursive && strStarts m (pkg ++ ".") then true
        else false

/-- `ReflectionConfig._is_implementation` from pyiv/reflection.py lines
159-196: must be a class, a proper subclass of the interface, match the
name pattern when one is given (`matcher` stands for `fnmatch.fnmatch`),
and be declared in the module being scanned. -/
def isImplementationF (matcher : String → String → Bool) (obj : RClass)
    (pattern : Option String) (currentModulePath : Option String)
    (regInfo : Option (String × Bool)) : Bool :=
  if !obj.isClass then false
  else if !obj.subclassesIface || obj.isIface then false
  else
    match pattern with
    | some pat =>
      if !matcher obj.name pat then false
      else isInModuleF obj currentModulePath regInfo
    | none => isInModuleF obj currentModulePath regInfo

mutual

/-- Recursive submodule scan of one package, the driver of
`ReflectionConfig._scan_submodules_recursive` (pyiv/reflection.py lines
246-295): enumerate the package's submodules and process each.  The fuel
bounds the tree depth; scenarios use ample fuel. -/
def scanModuleF (matcher : String → String → Bool) (mods : List RModule)
    (pattern : Option String) (regInfo : Option (String × Bool)) :
    Nat → String → String → List (String × RClass) → List (String × RClass)
  | 0, _, _, acc => acc
  | n + 1, pkgPath, rootPath, acc =>
    match modFind mods pkgPath with
    | none => acc
    | some m => scanSubsF matcher mods pattern regInfo n pkgPath rootPath m.subNames acc
termination_by structural fuel _ _ _ => fuel

/-- Per-submodule body of `_scan_submodules_recursive`: import the
submodule (skipping it on ImportError), compute the path relative to the
root package for naming, collect its accepted members under
`relative.Name`, then recurse into it before moving to the next sibling. -/
def scanSubsF (matcher : String → String → Bool) (mods : List RModule)
    (pattern : Option String) (regInfo : Option (String × Bool)) :
    Nat → String → String → List String → List (String × RClass) → List (String × RClass)
  | 0, _, _, _, acc => acc
  | _ + 1, _, _, [], acc => acc
  | n + 1, pkgPath, rootPath, sub :: rest, acc =>
    match modFind mods (pkgPath ++ "." ++ sub) with
    | none => scanSubsF matcher mods pattern regInfo n pkgPath rootPath rest acc
    | some sm =>
      let full := pkgPath ++ "." ++ sub
      let relative :=
        if strStarts full rootPath then strDropChars full (strLenChars rootPath + 1)
        else sub
      let acc1 := sm.members.foldl
        (fun a obj =>
          if isImplementationF matcher obj pattern (some full) regInfo then
            sSet a (if relative == "" then obj.name else relative ++ "." ++ obj.name) obj
          else a)
        acc
      let acc2 := scanModuleF matcher mods pattern regInfo n full rootPath acc1
      scanSubsF matcher mods pattern regInfo n pkgPath rootPath rest acc2
termination_by structural fuel _ _ _ _ => fuel

end

/-- `ReflectionConfig.discover_implementations` from pyiv/reflection.py
lines 94-139 for a registered interface: import the package (`none` models
the ImportError), collect accepted members of the package module itself
(current path = the package path), then scan submodules recursively when
requested.  The result dict name-to-class is an insertion-ordered
association list updated with dict semantics. -/
def discoverImplsF (matcher : String → String → Bool) (mods : List RModule)
    (pattern : Option String) (recursive : Bool) (fuel : Nat)
    (packagePath : String) : Option (List (String × RClass)) :=
  match modFind mods packagePath with
  | none => none
  | some pkg =>
    let regInfo := some (packagePath, recursive)
    let top := pkg.members.foldl
      (fun a obj =>
        if isImplementationF matcher obj pattern (some packagePath) regInfo then
          sSet a obj.name obj
        else a)
      []
    if recursive then
      some (scanModuleF matcher mods pattern regInfo fuel packagePath packagePath top)
    else some top

end Pyiv

namespace Pyiv

/-- A concrete class with a default-constructible `__init__` (only the
`self` receiver), no abstract methods, and no `get` attribute. -/
def noArgCls : ClassDef :=
  { params := [selfParam], abstract := false, hasGetAttr := false }

/-- An abstract class: dependency resolution of its (trivial) signature
succeeds but calling the class raises TypeError. -/
def abstractCls : ClassDef :=
  { params := [selfParam], abstract := true, hasGetAttr := false }

/-- Class and factory ids used by the concrete scenarios below.  Id 0 is
the `Injector` class (`tyInjector`).  The remaining ids are scenario
classes; every id not listed explicitly in `W0` denotes a default
concrete no-argument class. -/
def tyDatabaseA : Nat := 1

/-- Concrete implementation class registered for `tyDatabaseA`. -/
def tyPostgresA : Nat := 2

/-- Concrete base class used by the qualified-binding scenario. -/
def tyDatabaseQ : Nat := 3

/-- First bound implementation in the qualified-binding scenario. -/
def tyPostgresQ : Nat := 4

/-- Second bound implementation in the qualified-binding scenario. -/
def tyMySQLQ : Nat := 5

/-- Service whose constructor declares `cache: Optional[Cache] = None`. -/
def tyServiceOpt : Nat := 6

/-- The optional dependency class (concrete, default-constructible). -/
def tyCacheOpt : Nat := 7

/-- Interface of the order-sensitive multibinding scenario. -/
def tyHandlerI : Nat := 8

/-- First implementation in the multibinding scenario. -/
def tyImplA : Nat := 9

/-- Second implementation in the multibinding scenario. -/
def tyImplB : Nat := 10

/-- Service with a `Set[Handler]` constructor parameter. -/
def tyServiceSet : Nat := 11

/-- Service with a `List[Handler]` constructor parameter. -/
def tyServiceList : Nat := 12

/-- Multibinding element whose injection raises ValueError (a required
builtin-annotated parameter with no default). -/
def tyBadVal : Nat := 13

/-- Multibinding element whose injection raises TypeError (abstract). -/
def tyBadTyp : Nat := 14

/-- Multibinding element whose injection succeeds. -/
def tyGood : Nat := 15

/-- Service with a `Set[IfaceM]` constructor parameter. -/
def tyServiceSetM : Nat := 16

/-- Interface of the error-tolerant multibinding scenario. -/
def tyIfaceM : Nat := 17

/-- Service with a `List[IfaceM]` constructor parameter. -/
def tyServiceListM : Nat := 18

/-- Service whose constructor declares `injector: Injector`. -/
def tyServiceInj : Nat := 19

/-- Class of the objects the scenario factory returns. -/
def tyFromFactory : Nat := 20

/-- Abstract type registered to the scenario factory. -/
def tyFactoryTarget : Nat := 21

/-- The scenario world: constructor signatures and flags for each class id,
and the one factory (id 0), whose Python counterpart is
`def make(injector): ...`. -/
def W0 : World :=
  { classes := fun t =>
      match t with
      | 1 => abstractCls
      | 6 => { params := [selfParam,
                 { name := "cache", kind := .normal, ann := .optionalOf tyCacheOpt,
                   dflt := some .vnone }],
               abstract := false, hasGetAttr := false }
      | 11 => { params := [selfParam,
                  { name := "handlers", kind := .normal, ann := .setOf tyHandlerI,
                    dflt := none }],
                abstract := false, hasGetAttr := false }
      | 12 => { params := [selfParam,
                  { name := "handlers", kind := .normal, ann := .listOf tyHandlerI,
                    dflt := none }],
                abstract := false, hasGetAttr := false }
      | 13 => { params := [selfParam,
                  { name := "x", kind := .normal, ann := .builtinA, dflt := none }],
                abstract := false, hasGetAttr := false }
      | 14 => abstractCls
      | 16 => { params := [selfParam,
                  { name := "items", kind := .normal, ann := .setOf tyIfaceM,
                    dflt := none }],
                abstract := false, hasGetAttr := false }
      | 18 => { params := [selfParam,
                  { name := "items", kind := .normal, ann := .listOf tyIfaceM,
                    dflt := none }],
                abstract := false, hasGetAttr := false }
      | 19 => { params := [selfParam,
                  { name := "injector", kind := .normal, ann := .clsA tyInjector,
                    dflt := none }],
                abstract := false, hasGetAttr := false }
      | _ => noArgCls,
    factories := fun _ =>
      { params := [{ name := "injector", kind := .normal, ann := .noAnn, dflt := none }],
        retCls := tyFromFactory } }

/-- Unwrap a registration that is known to succeed. -/
def cfgOf (r : Except PyError ConfigD) : ConfigD :=
  match r with
  | .ok c => c
  | .error _ => emptyConfig

/-- Config of the singleton scenario:
`register(Database, PostgreSQL, singleton_type=SingletonType.SINGLETON)`. -/
def cfgSingleton : ConfigD :=
  cfgOf (registerF emptyConfig tyDatabaseA (.cls tyPostgresA) false .singletonT none none)

/-- Qualified key `Key(DatabaseQ, Named("a"))`. -/
def keyQa : KeyV := { ty := tyDatabaseQ, qual := some (.named "a") }

/-- Qualified key `Key(DatabaseQ, Named("b"))`. -/
def keyQb : KeyV := { ty := tyDatabaseQ, qual := some (.named "b") }

/-- Config of the qualified-binding scenario:
`register_key(Key(DB, Named("a")), PostgresQ)` and
`register_key(Key(DB, Named("b")), MySQLQ)`. -/
def cfgKeys : ConfigD :=
  registerKeyF W0 (registerKeyF W0 emptyConfig keyQa (.kCls tyPostgresQ) none)
    keyQb (.kCls tyMySQLQ) none

/-- Config of the optional scenario before `Cache` is registered. -/
def cfgOptNone : ConfigD := emptyConfig

/-- Config of the optional scenario after `register(Cache, Cache)`. -/
def cfgOptReg : ConfigD :=
  cfgOf (registerF emptyConfig tyCacheOpt (.cls tyCacheOpt) false .noneT none none)

/-- Set multibinding registered in the order A then B. -/
def cfgSetAB : ConfigD :=
  registerMultibindingF (registerMultibindingF emptyConfig tyHandlerI tyImplA true)
    tyHandlerI tyImplB true

/-- Set multibinding registered in the order B then A. -/
def cfgSetBA : ConfigD :=
  registerMultibindingF (registerMultibindingF emptyConfig tyHandlerI tyImplB true)
    tyHandlerI tyImplA true

/-- List multibinding registered as [A, B, A]. -/
def cfgListABA : ConfigD :=
  registerMultibindingF (registerMultibindingF
    (registerMultibindingF emptyConfig tyHandlerI tyImplA false)
    tyHandlerI tyImplB false) tyHandlerI tyImplA false

/-- A pre-created `Good` instance pre-added to a multibinding instance
slot (id 100 is disjoint from interpreter allocations, which are small). -/
def preInst : PVal := .obj 100 tyGood []

/-- Config of the error-tolerant multibinding scenario: implementations
[BadVal, BadTyp, Good] in both the set and the list slot, and `preInst`
pre-added to the list-instance slot. -/
def cfgMixed : ConfigD :=
  { emptyConfig with multibindings :=
      [(tyIfaceM, ([tyBadVal, tyBadTyp, tyGood], [tyBadVal, tyBadTyp, tyGood],
        [], [preInst]))] }

/-- A pre-created instance sitting in the set-instance slot only. -/
def preSetInst : PVal := .obj 101 tyGood []

/-- Config with a multibinding whose only content is a pre-added
set-slot instance. -/
def cfgSetSlotOnly : ConfigD :=
  { emptyConfig with multibindings := [(tyIfaceM, ([], [], [preSetInst], []))] }

/-- Config with the scenario factory registered for `tyFactoryTarget`. -/
def cfgFactory : ConfigD :=
  cfgOf (registerF emptyConfig tyFactoryTarget (.factory 0) false .noneT none none)

/-- Provider registered for the consultation-order witness. -/
def provW : ProviderRepr := .instanceP (.obj 55 tyPostgresA [])

/-- Config with an explicit provider registration for `tyPostgresA`. -/
def cfgProvider : ConfigD :=
  cfgOf (registerF emptyConfig tyPostgresA (.cls tyPostgresA) false .noneT none (some provW))

/-- Accept-all name matcher standing in for `fnmatch` in scenarios without
a pattern. -/
def matcherTrue : String → String → Bool := fun _ _ => true

/-- The re-exported class of the reflection scenario: `Thing` is declared
in `pkg.core`, is a class, and properly subclasses the scanned interface. -/
def thingCls : RClass :=
  { name := "Thing", isClass := true, declModule := some "pkg.core",
    subclassesIface := true, isIface := false }

/-- The reflection scenario tree: package `pkg` with submodules `core`
(declaring `Thing`) and `api` (re-exporting the same `Thing` object from
`pkg.core`). -/
def modsReexport : List RModule :=
  [{ path := "pkg", members := [], subNames := ["core", "api"] },
   { path := "pkg.core", members := [thingCls], subNames := [] },
   { path := "pkg.api", members := [thingCls], subNames := [] }]

end Pyiv

namespace Pyiv

/-- C2: the claim states that a binding registered with a per-injector
SingletonScope (here via `register(Database, PostgreSQL,
singleton_type=SINGLETON)`) yields `db1 is db2` on one injector and distinct
objects on two injectors.  On the code, `register` stores a `SingletonScope`
for the binding, `inject` enters `_inject_scoped`, `SingletonScope.scope`
returns the local function `scoped_provider`, and `_inject_scoped` calls
`.get()` on that plain function — every such `inject` raises
AttributeError, so no object is ever returned at all (the repository's own
test suite, tests/test_singleton.py, asserts the claimed behaviour). -/
theorem C2_singleton_scope_inject_raises_attribute_error :
    dGet cfgSingleton.scopes tyDatabaseA = some (ScopeV.singletonScope 1)
    ∧ dGet cfgSingleton.registrations tyDatabaseA = some (Concrete.cls tyPostgresA)
    ∧ (injectT W0 cfgSingleton 1 60 (mkSt cfgSingleton) (.ty tyDatabaseA) []).2
        = .error .attributeError :=
  ⟨rfl, rfl, rfl⟩

/-- C3: the claim states that `register_key(Key(T, Qualifier q), Impl)`
binds `Impl` so that injecting each key returns an instance of that key's
bound implementation.  On the code, `register_key` stores
`(key.type, provider, scope)` and discards a class implementation entirely
(it only becomes a provider when the class happens to own a callable `get`
attribute), so injecting either key falls back to plain `inject(key.type)`
and returns an instance of the base type `DatabaseQ` itself — never of the
bound `PostgresQ`/`MySQLQ` (the docstring of pyiv/key.py promises the
claimed behaviour). -/
theorem C3_register_key_discards_class_implementation :
    dGetBy keyBeq cfgKeys.qualifiedBindings keyQa = some (tyDatabaseQ, none, none)
    ∧ dGetBy keyBeq cfgKeys.qualifiedBindings keyQb = some (tyDatabaseQ, none, none)
    ∧ (injectT W0 cfgKeys 1 60 (mkSt cfgKeys) (.key keyQa) []).2
        = .ok (.obj 1 tyDatabaseQ [])
    ∧ (injectT W0 cfgKeys 1 60 (mkSt cfgKeys) (.key keyQb) []).2
        = .ok (.obj 1 tyDatabaseQ [])
    ∧ tyDatabaseQ ≠ tyPostgresQ ∧ tyDatabaseQ ≠ tyMySQLQ :=
  ⟨rfl, rfl, rfl, rfl, by decide, by decide⟩

/-- C4: the claim states that with `Cache` unregistered, `inject(Service)`
succeeds with `service.cache is None`, and resolves a real `Cache` once it
is registered.  On the code, the `Optional[T]` branch of
`_resolve_dependencies` calls `inject(Cache)` unconditionally, and `inject`
direct-instantiates unregistered concrete classes, so even with no
registration the parameter receives a fresh `Cache` instance, not None
(the docstring of pyiv/optional.py promises `service.cache is None`).  The
registered half of the claim does hold, with an identical result. -/
theorem C4_optional_unregistered_gets_instance_not_none :
    (injectT W0 cfgOptNone 1 60 (mkSt cfgOptNone) (.ty tyServiceOpt) []).2
      = .ok (.obj 2 tyServiceOpt [("cache", .obj 1 tyCacheOpt [])])
    ∧ (injectT W0 cfgOptReg 1 60 (mkSt cfgOptReg) (.ty tyServiceOpt) []).2
      = .ok (.obj 2 tyServiceOpt [("cache", .obj 1 tyCacheOpt [])])
    ∧ PVal.obj 1 tyCacheOpt [] ≠ PVal.vnone :=
  ⟨rfl, rfl, fun h => PVal.noConfusion h⟩

/-- C5: a `Set[T]` parameter against a multibinding with implementations
{A, B} resolves to exactly two distinct instances whichever order A and B
were registered in, and a `List[T]` parameter against a multibinding
registered as [A, B, A] resolves to [A-instance, B-instance, A-instance] in
exactly that order with the duplicate preserved as a fresh instance (all
three objects have distinct identities, and the two set elements are one
instance of each class). -/
theorem C5_multibinding_set_and_list_resolution :
    (injectT W0 cfgSetAB 1 60 (mkSt cfgSetAB) (.ty tyServiceSet) []).2
      = .ok (.obj 3 tyServiceSet
          [("handlers", .vset [.obj 1 tyImplA [], .obj 2 tyImplB []])])
    ∧ (injectT W0 cfgSetBA 1 60 (mkSt cfgSetBA) (.ty tyServiceSet) []).2
      = .ok (.obj 3 tyServiceSet
          [("handlers", .vset [.obj 1 tyImplB [], .obj 2 tyImplA []])])
    ∧ [PVal.obj 1 tyImplA [], PVal.obj 2 tyImplB []].length = 2
    ∧ (injectT W0 cfgListABA 1 60 (mkSt cfgListABA) (.ty tyServiceList) []).2
      = .ok (.obj 4 tyServiceList
          [("handlers", .vlist [.obj 1 tyImplA [], .obj 2 tyImplB [], .obj 3 tyImplA []])]) :=
  ⟨rfl, rfl, rfl, rfl⟩

/-- C9 counterexample: the claim asserts that, for a multibinding, the
resolved collection still includes all pre-added instances.  Concretely,
for a multibinding whose set-instance slot holds the pre-added instance
`preSetInst` and a `Set[T]` parameter, the enclosing injection succeeds but
the resolved set is empty — the set branch of `_resolve_dependencies` seeds
from the list-instance slot (`set(list_instances)`) and never reads the
set-instance slot, so the pre-added instance is dropped. -/
theorem C9_counterexample_set_slot_instance_dropped :
    cfgSetSlotOnly.multibindings = [(tyIfaceM, ([], [], [preSetInst], []))]
    ∧ (injectT W0 cfgSetSlotOnly 1 60 (mkSt cfgSetSlotOnly) (.ty tyServiceSetM) []).2
        = .ok (.obj 1 tyServiceSetM [("items", .vset [])])
    ∧ preSetInst ∉ ([] : List PVal) :=
  ⟨rfl, rfl, by simp⟩

/-- C9 (amended): when materializing a `Set[T]` or `List[T]` multibinding
parameter, any registered implementation whose recursive inject raises
ValueError or TypeError is silently omitted; the remaining elements and all
instances pre-added to the list-instance slot are still included (the set
branch seeds from the list-instance slot and ignores set-slot instances),
and the enclosing injection succeeds.  Here injecting `tyBadVal` raises
ValueError (missing required parameter), injecting `tyBadTyp` raises
TypeError (abstract class), and both collections come back with exactly the
pre-added list-slot instance followed by the fresh `tyGood` instance. -/
theorem C9_amended_failing_elements_omitted :
    (injectT W0 cfgMixed 1 60 (mkSt cfgMixed) (.ty tyBadVal) []).2 = .error .valueError
    ∧ (injectT W0 cfgMixed 1 60 (mkSt cfgMixed) (.ty tyBadTyp) []).2 = .error .typeError
    ∧ (injectT W0 cfgMixed 1 60 (mkSt cfgMixed) (.ty tyServiceSetM) []).2
        = .ok (.obj 2 tyServiceSetM [("items", .vset [preInst, .obj 1 tyGood []])])
    ∧ (injectT W0 cfgMixed 1 60 (mkSt cfgMixed) (.ty tyServiceListM) []).2
        = .ok (.obj 2 tyServiceListM [("items", .vlist [preInst, .obj 1 tyGood []])]) :=
  ⟨rfl, rfl, rfl, rfl⟩

/-- C10: a constructor parameter named exactly `injector` and annotated
with the `Injector` type is bound to the injector performing the resolution
even though `Injector` has no registration at all, and a registered factory
callable whose signature contains a parameter named `injector` is invoked
with that injector passed for it — for every injector identity `iid`. -/
theorem C10_injector_parameter_bound_to_resolving_injector (iid : Nat) :
    (injectT W0 emptyConfig iid 60 (mkSt emptyConfig) (.ty tyServiceInj) []).2
      = .ok (.obj 1 tyServiceInj [("injector", .injectorRef iid)])
    ∧ (injectT W0 cfgFactory iid 60 (mkSt cfgFactory) (.ty tyFactoryTarget) []).2
      = .ok (.obj 1 tyFromFactory [("injector", .injectorRef iid)])
    ∧ dGet emptyConfig.registrations tyInjector = none :=
  ⟨rfl, rfl, rfl⟩

/-- C7: for both SingletonScope and GlobalSingletonScope, the scoped
provider re-raises any exception the wrapped provider raises and inserts
nothing into the cache on failure: a first call on a cache with no entry
for the key propagates the provider's error and leaves the cache unchanged
(so the key still has no entry), and a subsequent call invokes the wrapped
provider again — here observable as the second call consuming the
provider's next invocation outcome and advancing the invocation counter. -/
theorem C7_scope_does_not_cache_failures
    (cache : List (Nat × PVal)) (key : Nat) (prov : Nat → Except PyError PVal)
    (e : PyError) (v : PVal)
    (hmiss : dGet cache key = none) (hfail : prov 0 = .error e) :
    singletonScopeGetF cache key prov 0 = (cache, 1, .error e)
    ∧ (prov 1 = .ok v → singletonScopeGetF cache key prov 1 = (dSet cache key v, 2, .ok v))
    ∧ globalSingletonScopeGetF cache key prov 0 = (cache, 1, .error e)
    ∧ (prov 1 = .ok v → globalSingletonScopeGetF cache key prov 1 = (dSet cache key v, 2, .ok v)) := by
  refine ⟨?_, ?_, ?_, ?_⟩
  · simp [singletonScopeGetF, hmiss, hfail]
  · intro h
    simp [singletonScopeGetF, hmiss, h]
  · simp [globalSingletonScopeGetF, hmiss, hfail]
  · intro h
    simp [globalSingletonScopeGetF, hmiss, h]

/-- Concrete witness for C7: an empty cache and a provider that raises
ValueError on its first invocation and returns None on its second. -/
theorem C7_scope_does_not_cache_failures_witness :
    singletonScopeGetF [] 5 (fun n => if n == 0 then .error .valueError else .ok .vnone) 0
      = ([], 1, .error .valueError)
    ∧ singletonScopeGetF [] 5 (fun n => if n == 0 then .error .valueError else .ok .vnone) 1
      = (dSet [] 5 .vnone, 2, .ok .vnone) :=
  ⟨(C7_scope_does_not_cache_failures [] 5
      (fun n => if n == 0 then .error .valueError else .ok .vnone) .valueError .vnone
      rfl rfl).1,
   (C7_scope_does_not_cache_failures [] 5
      (fun n => if n == 0 then .error .valueError else .ok .vnone) .valueError .vnone
      rfl rfl).2.1 rfl⟩

end Pyiv

namespace Pyiv

theorem qualEq_comm (a b : Option QualV) : qualEq a b = qualEq b a := by
  cases a with
  | none => cases b with
    | none => rfl
    | some q => cases q; rfl
  | some q =>
    cases q with
    | named s =>
      cases b with
      | none => rfl
      | some r =>
        cases r with
        | named t =>
          simp only [qualEq]
          by_cases h : s = t
          · simp [h]
          · simp [h, Ne.symm h]

theorem qualEq_trans {a b c : Option QualV} (h1 : qualEq a b = true)
    (h2 : qualEq b c = true) : qualEq a c = true := by
  rcases a with _ | ⟨s⟩ <;> rcases b with _ | ⟨t⟩ <;> rcases c with _ | ⟨u⟩ <;>
    simp_all [qualEq]

theorem qualEq_hash {a b : Option QualV} (h : qualEq a b = true) :
    qualHashF a = qualHashF b := by
  rcases a with _ | ⟨s⟩ <;> rcases b with _ | ⟨t⟩ <;>
    first
    | rfl
    | simp_all [qualEq, qualHashF]

theorem keyBeq_comm (k1 k2 : KeyV) : keyBeq k1 k2 = keyBeq k2 k1 := by
  unfold keyBeq
  rw [qualEq_comm]
  by_cases h : k1.ty = k2.ty
  · rw [h]
  · have h1 : (k1.ty == k2.ty) = false := by simp [h]
    have h2 : (k2.ty == k1.ty) = false := by simp [Ne.symm h]
    rw [h1, h2]

theorem keyBeq_trans {k1 k2 k3 : KeyV} (h1 : keyBeq k1 k2 = true)
    (h2 : keyBeq k2 k3 = true) : keyBeq k1 k3 = true := by
  simp only [keyBeq, Bool.and_eq_true, beq_iff_eq] at h1 h2 ⊢
  exact ⟨h1.1.trans h2.1, qualEq_trans h1.2 h2.2⟩

/-- C6: two Keys are equal exactly when their types compare equal and their
qualifiers compare equal; equal keys have equal hashes; and under the
dictionary semantics used for binding lookup, inserting under a key that is
not equal to `k1` never disturbs `k1`'s slot, while inserting under a key
equal to `k1` is what a later lookup of `k1` finds — identical
(type, qualifier) pairs always collide, different qualifiers never do. -/
theorem C6_key_equality_hash_and_dict_slots (k1 k2 : KeyV) :
    (keyBeq k1 k2 = true ↔ (k1.ty = k2.ty ∧ qualEq k1.qual k2.qual = true))
    ∧ (keyBeq k1 k2 = true → keyHash k1 = keyHash k2)
    ∧ (∀ (α : Type) (d : List (KeyV × α)) (v : α), keyBeq k1 k2 = false →
        dGetBy keyBeq (dSetBy keyBeq d k2 v) k1 = dGetBy keyBeq d k1)
    ∧ (∀ (α : Type) (d : List (KeyV × α)) (v : α), keyBeq k1 k2 = true →
        dGetBy keyBeq (dSetBy keyBeq d k2 v) k1 = some v) := by
  refine ⟨?_, ?_, ?_, ?_⟩
  · simp [keyBeq, Bool.and_eq_true, beq_iff_eq]
  · intro h
    simp only [keyBeq, Bool.and_eq_true, beq_iff_eq] at h
    simp only [keyHash, h.1, qualEq_hash h.2]
  · intro α d v hne
    induction d with
    | nil =>
      have h21 : keyBeq k2 k1 = false := by rw [keyBeq_comm]; exact hne
      simp [dSetBy, dGetBy, h21]
    | cons hd tl ih =>
      obtain ⟨x, w⟩ := hd
      by_cases hx2 : keyBeq x k2 = true
      · have hx1 : keyBeq x k1 = false := by
          by_contra hc
          have hx1t : keyBeq x k1 = true := by
            cases hxx : keyBeq x k1
            · exact absurd hxx hc
            · rfl
          have h1x : keyBeq k1 x = true := by rw [keyBeq_comm]; exact hx1t
          have : keyBeq k1 k2 = true := keyBeq_trans h1x hx2
          rw [this] at hne
          exact Bool.noConfusion hne
        simp [dSetBy, dGetBy, hx2, hx1]
      · have hx2f : keyBeq x k2 = false := by
          cases hxx : keyBeq x k2
          · rfl
          · exact absurd hxx hx2
        by_cases hx1 : keyBeq x k1 = true
        · simp [dSetBy, dGetBy, hx2f, hx1]
        · have hx1f : keyBeq x k1 = false := by
            cases hxx : keyBeq x k1
            · rfl
            · exact absurd hxx hx1
          simp [dSetBy, dGetBy, hx2f, hx1f, ih]
  · intro α d v heq
    induction d with
    | nil =>
      have h21 : keyBeq k2 k1 = true := by rw [keyBeq_comm]; exact heq
      simp [dSetBy, dGetBy, h21]
    | cons hd tl ih =>
      obtain ⟨x, w⟩ := hd
      by_cases hx2 : keyBeq x k2 = true
      · have hx1 : keyBeq x k1 = true := by
          have h2x : keyBeq k2 k1 = true := by rw [keyBeq_comm]; exact heq
          exact keyBeq_trans hx2 h2x
        simp [dSetBy, dGetBy, hx2, hx1]
      · have hx2f : keyBeq x k2 = false := by
          cases hxx : keyBeq x k2
          · rfl
          · exact absurd hxx hx2
        have hx1f : keyBeq x k1 = false := by
          by_contra hc
          have hx1t : keyBeq x k1 = true := by
            cases hxx : keyBeq x k1
            · exact absurd hxx hc
            · rfl
          have : keyBeq x k2 = true := keyBeq_trans hx1t heq
          rw [this] at hx2f
          exact Bool.noConfusion hx2f
        simp [dSetBy, dGetBy, hx2f, hx1f, ih]

/-- Concrete witness for C6: keys of the same type with qualifiers "a" and
"b" are unequal, so inserting a binding under the "b" key leaves the "a"
key's slot untouched, while re-inserting under an equal "a" key is found by
lookup of the "a" key. -/
theorem C6_key_equality_hash_and_dict_slots_witness :
    dGetBy keyBeq (dSetBy keyBeq [(keyQa, 10)] keyQb 20) keyQa
      = dGetBy keyBeq [(keyQa, 10)] keyQa
    ∧ dGetBy keyBeq (dSetBy keyBeq [(keyQa, 10)] keyQa 20) keyQa = some 20
    ∧ keyHash keyQa = keyHash { ty := tyDatabaseQ, qual := some (.named "a") } :=
  ⟨(C6_key_equality_hash_and_dict_slots keyQa keyQb).2.2.1 Nat [(keyQa, 10)] 20 rfl,
   (C6_key_equality_hash_and_dict_slots keyQa keyQa).2.2.2 Nat [(keyQa, 10)] 20 rfl,
   (C6_key_equality_hash_and_dict_slots keyQa
     { ty := tyDatabaseQ, qual := some (.named "a") }).2.1 rfl⟩

/-- C8: during reflection discovery a candidate is accepted for a scanned
module only when its declaring-module attribute equals the module currently
being scanned; consequently, scanning `pkg` recursively over a tree where
`pkg.api` re-exports the `Thing` class declared in `pkg.core` discovers
exactly one entry, named from `pkg.core`, and nothing from `pkg.api`. -/
theorem C8_discovery_requires_declaring_module :
    (∀ (matcher : String → String → Bool) (obj : RClass) (pattern : Option String)
       (m : String) (regInfo : Option (String × Bool)),
       isImplementationF matcher obj pattern (some m) regInfo = true →
       obj.declModule = some m)
    ∧ discoverImplsF matcherTrue modsReexport none true 10 "pkg"
        = some [("core.Thing", thingCls)] := by
  constructor
  · intro matcher obj pattern m regInfo h
    have hin : isInModuleF obj (some m) regInfo = true := by
      by_cases h1 : obj.isClass = true
      · by_cases h2 : (!obj.subclassesIface || obj.isIface) = true
        · simp [isImplementationF, h1, h2] at h
        · rw [Bool.not_eq_true] at h2
          cases pattern with
          | none => simpa [isImplementationF, h1, h2] using h
          | some pat =>
            by_cases h3 : matcher obj.name pat = true
            · simpa [isImplementationF, h1, h2, h3] using h
            · rw [Bool.not_eq_true] at h3
              simp [isImplementationF, h1, h2, h3] at h
      · rw [Bool.not_eq_true] at h1
        simp [isImplementationF, h1] at h
    unfold isInModuleF at hin
    cases hdm : obj.declModule with
    | none => rw [hdm] at hin; exact absurd hin (by simp)
    | some dm =>
      rw [hdm] at hin
      have hdme : dm = m := by
        simpa using hin
      rw [hdme]
  · rfl

/-- Concrete witness for C8: the accepted hit of the scenario, `Thing`
scanned inside `pkg.core`, indeed has `pkg.core` as its declaring module. -/
theorem C8_discovery_requires_declaring_module_witness :
    isImplementationF matcherTrue thingCls none (some "pkg.core") none = true
    ∧ thingCls.declModule = some "pkg.core" :=
  ⟨rfl, C8_discovery_requires_declaring_module.1 matcherTrue thingCls none "pkg.core" none rfl⟩

end Pyiv

namespace Pyiv

theorem injectT_ty_step (W : World) (cfg : ConfigD) (iid n : Nat) (st : St)
    (cls : Nat) (kwargs : List (String × PVal)) :
    injectT W cfg iid (n + 1) st (.ty cls) kwargs =
      match dGet cfg.providers cls with
      | some p => providerGetF W cfg iid n st p
      | none =>
        match dGet cfg.scopes cls with
        | some (ScopeV.singletonScope sid) =>
          injectScopedF W cfg iid n st cls (ScopeV.singletonScope sid) kwargs
        | some (ScopeV.globalSingletonScope sid) =>
          injectScopedF W cfg iid n st cls (ScopeV.globalSingletonScope sid) kwargs
        | _ => injectAfterScopeF W cfg iid n st cls kwargs := rfl

theorem injectAfterScopeF_step (W : World) (cfg : ConfigD) (iid n : Nat) (st : St)
    (cls : Nat) (kwargs : List (String × PVal)) :
    injectAfterScopeF W cfg iid (n + 1) st cls kwargs =
      (let styp := getSingletonTypeF cfg cls
       if styp == SingletonType.globalSingletonT then
         globalSingletonBranchF W cfg iid n st cls kwargs
       else
         match dGet st.configInstances cls with
         | some (some v) => (st, .ok v)
         | _ =>
           match (if styp == SingletonType.singletonT then dGet st.singletons cls else none) with
           | some v => (st, .ok v)
           | none =>
             match dGet cfg.registrations cls with
             | none => directInstantiateF W cfg iid n st cls kwargs styp
             | some concrete => registeredTailF W cfg iid n st cls concrete kwargs styp) := rfl

/-- C1: for a class target, `Injector.inject` consults the registry in this
fixed priority order — (a) an explicit Provider registration answers
immediately via `provider.get()`; (b) otherwise an explicit non-NoScope
Scope registration sends resolution through the scope-wrapped path; (c)
otherwise the GLOBAL_SINGLETON legacy flag goes to the global Singleton
Registry branch; (d) otherwise a pre-registered instance is returned
directly; (e) otherwise a per-injector singleton cache hit is returned;
(f) otherwise, with no registration at all, the requested class itself is
instantiated directly (with caching per the singleton policy); and (g)
otherwise the registered concrete type or factory is instantiated with
caching per the singleton policy. -/
theorem C1_inject_consultation_order (W : World) (cfg : ConfigD) (iid n : Nat)
    (st : St) (cls : Nat) (kwargs : List (String × PVal)) :
    (∀ p, dGet cfg.providers cls = some p →
       injectT W cfg iid (n + 2) st (.ty cls) kwargs
         = providerGetF W cfg iid (n + 1) st p)
    ∧ (∀ s, dGet cfg.providers cls = none → dGet cfg.scopes cls = some s →
        s.isNoScope = false →
        injectT W cfg iid (n + 2) st (.ty cls) kwargs
          = injectScopedF W cfg iid (n + 1) st cls s kwargs)
    ∧ (dGet cfg.providers cls = none →
       (∀ s, dGet cfg.scopes cls = some s → s.isNoScope = true) →
       getSingletonTypeF cfg cls = .globalSingletonT →
       injectT W cfg iid (n + 2) st (.ty cls) kwargs
         = globalSingletonBranchF W cfg iid n st cls kwargs)
    ∧ (∀ v, dGet cfg.providers cls = none →
       (∀ s, dGet cfg.scopes cls = some s → s.isNoScope = true) →
       getSingletonTypeF cfg cls ≠ .globalSingletonT →
       dGet st.configInstances cls = some (some v) →
       injectT W cfg iid (n + 2) st (.ty cls) kwargs = (st, .ok v))
    ∧ (∀ v, dGet cfg.providers cls = none →
       (∀ s, dGet cfg.scopes cls = some s → s.isNoScope = true) →
       (dGet st.configInstances cls = none ∨ dGet st.configInstances cls = some none) →
       getSingletonTypeF cfg cls = .singletonT →
       dGet st.singletons cls = some v →
       injectT W cfg iid (n + 2) st (.ty cls) kwargs = (st, .ok v))
    ∧ (dGet cfg.providers cls = none →
       (∀ s, dGet cfg.scopes cls = some s → s.isNoScope = true) →
       getSingletonTypeF cfg cls ≠ .globalSingletonT →
       (dGet st.configInstances cls = none ∨ dGet st.configInstances cls = some none) →
       (getSingletonTypeF cfg cls = .singletonT → dGet st.singletons cls = none) →
       dGet cfg.registrations cls = none →
       injectT W cfg iid (n + 2) st (.ty cls) kwargs
         = directInstantiateF W cfg iid n st cls kwargs (getSingletonTypeF cfg cls))
    ∧ (∀ c, dGet cfg.providers cls = none →
       (∀ s, dGet cfg.scopes cls = some s → s.isNoScope = true) →
       getSingletonTypeF cfg cls ≠ .globalSingletonT →
       (dGet st.configInstances cls = none ∨ dGet st.configInstances cls = some none) →
       (getSingletonTypeF cfg cls = .singletonT → dGet st.singletons cls = none) →
       dGet cfg.registrations cls = some c →
       injectT W cfg iid (n + 2) st (.ty cls) kwargs
         = registeredTailF W cfg iid n st cls c kwargs (getSingletonTypeF cfg cls)) := by
  have hfall : ∀ (m : Nat),
      dGet cfg.providers cls = none →
      (∀ s, dGet cfg.scopes cls = some s → s.isNoScope = true) →
      injectT W cfg iid (m + 1) st (.ty cls) kwargs
        = injectAfterScopeF W cfg iid m st cls kwargs := by
    intro m hp hsc
    rw [injectT_ty_step]
    cases hs : dGet cfg.scopes cls with
    | none => rw [hp]
    | some s =>
      cases s with
      | noScope sid => rw [hp]
      | singletonScope sid =>
        have := hsc _ hs
        simp [ScopeV.isNoScope] at this
      | globalSingletonScope sid =>
        have := hsc _ hs
        simp [ScopeV.isNoScope] at this
  refine ⟨?_, ?_, ?_, ?_, ?_, ?_, ?_⟩
  · intro p hp
    rw [injectT_ty_step, hp]
  · intro s hp hs hns
    cases s with
    | noScope sid => simp [ScopeV.isNoScope] at hns
    | singletonScope sid => rw [injectT_ty_step, hp, hs]
    | globalSingletonScope sid => rw [injectT_ty_step, hp, hs]
  · intro hp hsc hst
    rw [hfall (n + 1) hp hsc, injectAfterScopeF_step]
    simp [hst]
  · intro v hp hsc hne hv
    rw [hfall (n + 1) hp hsc, injectAfterScopeF_step]
    rcases hst : getSingletonTypeF cfg cls with _ | _ | _
    · simp [hv]
    · simp [hv]
    · exact absurd hst hne
  · intro v hp hsc hmiss hst hhit
    rw [hfall (n + 1) hp hsc, injectAfterScopeF_step]
    rcases hmiss with hm | hm <;> simp [hst, hm, hhit]
  · intro hp hsc hne hmiss hcm hreg
    rw [hfall (n + 1) hp hsc, injectAfterScopeF_step]
    rcases hst : getSingletonTypeF cfg cls with _ | _ | _
    · rcases hmiss with hm | hm <;> simp [hm, hreg]
    · rcases hmiss with hm | hm <;> simp [hm, hreg, hcm hst]
    · exact absurd hst hne
  · intro c hp hsc hne hmiss hcm hreg
    rw [hfall (n + 1) hp hsc, injectAfterScopeF_step]
    rcases hst : getSingletonTypeF cfg cls with _ | _ | _
    · rcases hmiss with hm | hm <;> simp [hm, hreg]
    · rcases hmiss with hm | hm <;> simp [hm, hreg, hcm hst]
    · exact absurd hst hne

/-- Concrete witness for C1: in a config with an explicit provider
registration for the class, inject answers through the provider branch. -/
theorem C1_inject_consultation_order_witness :
    dGet cfgProvider.providers tyPostgresA = some provW
    ∧ injectT W0 cfgProvider 1 12 (mkSt cfgProvider) (.ty tyPostgresA) []
        = providerGetF W0 cfgProvider 1 11 (mkSt cfgProvider) provW :=
  ⟨rfl,
   (C1_inject_consultation_order W0 cfgProvider 1 10 (mkSt cfgProvider) tyPostgresA []).1
     provW rfl⟩

end Pyiv
